import Mathlib

/-!
Verification of the azure-aad-mfa-report pipeline.

The development shallowly embeds the pure core of `src/helpers.py` and
`src/main.py`: the field normalizers (`item_to_string`, `is_datetime`,
`is_external`, `is_external_domain`, `get_tenant_domain`, `get_mfa_methods`),
the response post-processing of the concurrent fetcher (`get_url`,
`get_aad_users`), the per-user merge performed in `main` and the report row
builder (`xlsx_dict_prep`).

Python values reaching these functions are embedded as `PyVal`; Python dicts
as insertion-ordered association lists; a raised exception as `Option.none`
(or `Except.error` where the exception class matters).  `datetime.strptime`
with the fixed format `"%Y-%m-%dT%H:%M:%SZ"` is embedded char-by-char after
CPython's `_strptime` regular expression for that format, including its
lenient alternatives (one- or two-digit month/day/hour/minute/second and
case-insensitive literals), followed by the `datetime` constructor's range
checks.
-/

/-- Embedding of the Python values that flow through the report pipeline. -/
inductive PyVal where
  | none
  | bool (b : Bool)
  | str (s : String)
  | int (n : Int)
  | list (xs : List PyVal)
  | dict (kvs : List (String × PyVal))

/-- Python `d[key]` / `key in d` on an insertion-ordered dict: first binding
of the key, if any. -/
def pyLookup {α : Type} : List (String × α) → String → Option α
  | [], _ => Option.none
  | (k, v) :: rest, key => if k = key then some v else pyLookup rest key

/-- A Python list comprehension whose body may raise: evaluated left to
right, the first failure aborts the whole comprehension. -/
def mapOpt {α β : Type} (f : α → Option β) : List α → Option (List β)
  | [] => some []
  | a :: l =>
    match f a with
    | Option.none => Option.none
    | some b =>
      match mapOpt f l with
      | Option.none => Option.none
      | some bs => some (b :: bs)

/-- Python truthiness (`if item:`) for the embedded values. -/
def pyTruthy : PyVal → Bool
  | PyVal.none => false
  | PyVal.bool b => b
  | PyVal.str s => !s.isEmpty
  | PyVal.int n => n != 0
  | PyVal.list xs => !xs.isEmpty
  | PyVal.dict kvs => !kvs.isEmpty

/-- The exception class raised by `datetime.strptime` on a mismatching
string. -/
inductive PyErr where
  | valueError

/-! ### CPython `strptime` for the fixed format `"%Y-%m-%dT%H:%M:%SZ"`

`_strptime.TimeRE` translates the format into the regular expression
`(?P<Y>\d\d\d\d)-(?P<m>1[0-2]|0[1-9]|[1-9])-(?P<d>3[0-1]|[1-2]\d|0[1-9]|[1-9]| [1-9])T(?P<H>2[0-3]|[0-1]\d|\d):(?P<M>[0-5]\d|\d):(?P<S>6[0-1]|[0-5]\d|\d)Z`
compiled with `IGNORECASE` and matched at the start of the string, with a
`ValueError` when the match fails or leaves unconverted data.  Each field
below consumes its alternatives in the regex order; committing to a longer
alternative is safe because every field is followed by a non-digit literal,
so a shorter alternative would leave a digit facing that literal and fail as
well. -/

/-- Numeric value of a digit character. -/
def cval (c : Char) : Nat := c.toNat - 48

/-- `%Y`: exactly four digits. -/
def parseY : List Char → Option (Nat × List Char)
  | c1 :: c2 :: c3 :: c4 :: rest =>
    if (('0' ≤ c1 ∧ c1 ≤ '9') ∧ ('0' ≤ c2 ∧ c2 ≤ '9')) ∧
       (('0' ≤ c3 ∧ c3 ≤ '9') ∧ ('0' ≤ c4 ∧ c4 ≤ '9')) then
      some (((cval c1 * 10 + cval c2) * 10 + cval c3) * 10 + cval c4, rest)
    else Option.none
  | _ => Option.none

/-- `%m`: `1[0-2]|0[1-9]|[1-9]`. -/
def parseMonth : List Char → Option (Nat × List Char)
  | c1 :: c2 :: rest =>
    if c1 = '1' ∧ ('0' ≤ c2 ∧ c2 ≤ '2') then some (10 + cval c2, rest)
    else if c1 = '0' ∧ ('1' ≤ c2 ∧ c2 ≤ '9') then some (cval c2, rest)
    else if '1' ≤ c1 ∧ c1 ≤ '9' then some (cval c1, c2 :: rest)
    else Option.none
  | [c1] => if '1' ≤ c1 ∧ c1 ≤ '9' then some (cval c1, []) else Option.none
  | [] => Option.none

/-- `%d`: `3[0-1]|[1-2]\d|0[1-9]|[1-9]| [1-9]`. -/
def parseDay : List Char → Option (Nat × List Char)
  | c1 :: c2 :: rest =>
    if c1 = '3' ∧ ('0' ≤ c2 ∧ c2 ≤ '1') then some (30 + cval c2, rest)
    else if ('1' ≤ c1 ∧ c1 ≤ '2') ∧ ('0' ≤ c2 ∧ c2 ≤ '9') then
      some (cval c1 * 10 + cval c2, rest)
    else if c1 = '0' ∧ ('1' ≤ c2 ∧ c2 ≤ '9') then some (cval c2, rest)
    else if '1' ≤ c1 ∧ c1 ≤ '9' then some (cval c1, c2 :: rest)
    else if c1 = ' ' ∧ ('1' ≤ c2 ∧ c2 ≤ '9') then some (cval c2, rest)
    else Option.none
  | [c1] => if '1' ≤ c1 ∧ c1 ≤ '9' then some (cval c1, []) else Option.none
  | [] => Option.none

/-- `%H`: `2[0-3]|[0-1]\d|\d`. -/
def parseHour : List Char → Option (Nat × List Char)
  | c1 :: c2 :: rest =>
    if c1 = '2' ∧ ('0' ≤ c2 ∧ c2 ≤ '3') then some (20 + cval c2, rest)
    else if ('0' ≤ c1 ∧ c1 ≤ '1') ∧ ('0' ≤ c2 ∧ c2 ≤ '9') then
      some (cval c1 * 10 + cval c2, rest)
    else if '0' ≤ c1 ∧ c1 ≤ '9' then some (cval c1, c2 :: rest)
    else Option.none
  | [c1] => if '0' ≤ c1 ∧ c1 ≤ '9' then some (cval c1, []) else Option.none
  | [] => Option.none

/-- `%M`: `[0-5]\d|\d`. -/
def parseMin : List Char → Option (Nat × List Char)
  | c1 :: c2 :: rest =>
    if ('0' ≤ c1 ∧ c1 ≤ '5') ∧ ('0' ≤ c2 ∧ c2 ≤ '9') then
      some (cval c1 * 10 + cval c2, rest)
    else if '0' ≤ c1 ∧ c1 ≤ '9' then some (cval c1, c2 :: rest)
    else Option.none
  | [c1] => if '0' ≤ c1 ∧ c1 ≤ '9' then some (cval c1, []) else Option.none
  | [] => Option.none

/-- `%S`: `6[0-1]|[0-5]\d|\d`. -/
def parseSec : List Char → Option (Nat × List Char)
  | c1 :: c2 :: rest =>
    if c1 = '6' ∧ ('0' ≤ c2 ∧ c2 ≤ '1') then some (60 + cval c2, rest)
    else if ('0' ≤ c1 ∧ c1 ≤ '5') ∧ ('0' ≤ c2 ∧ c2 ≤ '9') then
      some (cval c1 * 10 + cval c2, rest)
    else if '0' ≤ c1 ∧ c1 ≤ '9' then some (cval c1, c2 :: rest)
    else Option.none
  | [c1] => if '0' ≤ c1 ∧ c1 ≤ '9' then some (cval c1, []) else Option.none
  | [] => Option.none

/-- A literal character of the format (`-` and `:` here). -/
def parseLit (a : Char) : List Char → Option (List Char)
  | c :: rest => if c = a then some rest else Option.none
  | [] => Option.none

/-- The literal `T`, case-insensitive because `TimeRE` compiles with
`IGNORECASE`. -/
def parseLitT : List Char → Option (List Char)
  | c :: rest => if c = 'T' ∨ c = 't' then some rest else Option.none
  | [] => Option.none

/-- The literal `Z`, case-insensitive. -/
def parseLitZ : List Char → Option (List Char)
  | c :: rest => if c = 'Z' ∨ c = 'z' then some rest else Option.none
  | [] => Option.none

/-- The six fields `datetime.strptime` extracts for this format. -/
structure PyDateTime where
  year : Nat
  month : Nat
  day : Nat
  hour : Nat
  minute : Nat
  second : Nat

/-- The regex phase of `strptime`: match the whole string against the
compiled format, `ValueError` (here `Option.none`) on mismatch or leftover
data. -/
def strptimeFields (l0 : List Char) : Option PyDateTime :=
  match parseY l0 with
  | Option.none => Option.none
  | some (y, l1) =>
  match parseLit '-' l1 with
  | Option.none => Option.none
  | some l2 =>
  match parseMonth l2 with
  | Option.none => Option.none
  | some (mo, l3) =>
  match parseLit '-' l3 with
  | Option.none => Option.none
  | some l4 =>
  match parseDay l4 with
  | Option.none => Option.none
  | some (d, l5) =>
  match parseLitT l5 with
  | Option.none => Option.none
  | some l6 =>
  match parseHour l6 with
  | Option.none => Option.none
  | some (h, l7) =>
  match parseLit ':' l7 with
  | Option.none => Option.none
  | some l8 =>
  match parseMin l8 with
  | Option.none => Option.none
  | some (mi, l9) =>
  match parseLit ':' l9 with
  | Option.none => Option.none
  | some l10 =>
  match parseSec l10 with
  | Option.none => Option.none
  | some (s, l11) =>
  match parseLitZ l11 with
  | Option.none => Option.none
  | some l12 =>
  match l12 with
  | [] => some ⟨y, mo, d, h, mi, s⟩
  | _ => Option.none

/-- Gregorian leap year as computed by `datetime`. -/
def isLeapYear (y : Nat) : Bool := y % 4 = 0 && (y % 100 != 0 || y % 400 = 0)

/-- Length of a month, used by the `datetime` constructor's day check. -/
def daysInMonth (y m : Nat) : Nat :=
  if m = 2 then (if isLeapYear y then 29 else 28)
  else if m = 4 ∨ m = 6 ∨ m = 9 ∨ m = 11 then 30
  else 31

/-- `datetime.strptime(s, "%Y-%m-%dT%H:%M:%SZ")`: regex phase followed by the
`datetime` constructor's range validation (`MINYEAR = 1`, day within the
month, second at most 59 — the regex itself admits leap seconds 60 and 61,
which the constructor then rejects). -/
def strptime (s : String) : Option PyDateTime :=
  match strptimeFields s.data with
  | Option.none => Option.none
  | some dt =>
    if (1 ≤ dt.year ∧ dt.year ≤ 9999) ∧
       ((1 ≤ dt.month ∧ dt.month ≤ 12) ∧
         (1 ≤ dt.day ∧ dt.day ≤ daysInMonth dt.year dt.month)) ∧
       ((dt.hour ≤ 23 ∧ dt.minute ≤ 59) ∧ dt.second ≤ 59) then
      some dt
    else Option.none

/-- The decimal digit characters, for printing. -/
def digitChar : Nat → Char
  | 0 => '0' | 1 => '1' | 2 => '2' | 3 => '3' | 4 => '4'
  | 5 => '5' | 6 => '6' | 7 => '7' | 8 => '8' | _ => '9'

/-- Two-digit zero-padded decimal, as `datetime.isoformat` prints month, day,
hour, minute and second. -/
def pad2 (n : Nat) : List Char := [digitChar (n / 10 % 10), digitChar (n % 10)]

/-- Four-digit zero-padded decimal, as `datetime.isoformat` prints the
year. -/
def pad4 (n : Nat) : List Char :=
  [digitChar (n / 1000 % 10), digitChar (n / 100 % 10),
   digitChar (n / 10 % 10), digitChar (n % 10)]

/-- `datetime.isoformat()` for a whole-second datetime:
`YYYY-MM-DDTHH:MM:SS`. -/
def isoformat (dt : PyDateTime) : String :=
  String.mk (pad4 dt.year ++ '-' :: pad2 dt.month ++ '-' :: pad2 dt.day ++
    'T' :: pad2 dt.hour ++ ':' :: pad2 dt.minute ++ ':' :: pad2 dt.second)

/-- The canonical input shape `YYYY-MM-DDTHH:MM:SSZ` built from numeric
fields; `isoformat` followed by the UTC designator. -/
def fmtZ (y mo d h mi s : Nat) : String :=
  String.mk ((isoformat ⟨y, mo, d, h, mi, s⟩).data ++ ['Z'])

/-- `helpers.is_datetime`: `None` and the empty string are falsy and yield
`"N/A"`; otherwise the string is parsed with `strptime` (propagating its
`ValueError`), years after 1999 yield `isoformat`, earlier years yield
`"Never"`. -/
def is_datetime (item : Option String) : Except PyErr String :=
  match item with
  | Option.none => Except.ok "N/A"
  | some s =>
    if s = "" then Except.ok "N/A"
    else
      match strptime s with
      | Option.none => Except.error PyErr.valueError
      | some d => if 1999 < d.year then Except.ok (isoformat d) else Except.ok "Never"

/-- `helpers.item_to_string`: `None` ↦ `"N/A"`, `True` ↦ `"Yes"`, `False` ↦
`"No"`, a string is given to `is_datetime` with `ValueError` caught and the
string passed through, anything else is returned unchanged. -/
def item_to_string (item : PyVal) : PyVal :=
  match item with
  | PyVal.none => PyVal.str "N/A"
  | PyVal.bool true => PyVal.str "Yes"
  | PyVal.bool false => PyVal.str "No"
  | PyVal.str s =>
    match is_datetime (some s) with
    | Except.ok r => PyVal.str r
    | Except.error _ => PyVal.str s
  | v => v

/-- The guest-account marker `#EXT#`. -/
def extMarker : List Char := ['#', 'E', 'X', 'T', '#']

/-- `helpers.is_external`: `bool(re.search("#EXT#", item))` rendered through
`item_to_string`. -/
def containsMarker : List Char → Bool
  | [] => false
  | c :: rest => extMarker.isPrefixOf (c :: rest) || containsMarker rest

/-- `helpers.is_external` on the principal-name string. -/
def is_external (s : String) : PyVal :=
  item_to_string (PyVal.bool (containsMarker s.data))

/-- Greedy backtracking of `(.*)(?=#EXT#)` after a fixed start: the largest
`j` such that `#EXT#` starts at offset `j` and the `j` consumed characters
contain no newline (`.` does not match a newline); the capture is those `j`
characters.  `gcAux t j` tries offsets `j`, `j-1`, …, `0`. -/
def gcAux (t : List Char) : Nat → Option (List Char)
  | 0 => if extMarker.isPrefixOf t then some [] else Option.none
  | j + 1 =>
    if extMarker.isPrefixOf (t.drop (j + 1)) && !((t.take (j + 1)).contains '\n') then
      some (t.take (j + 1))
    else gcAux t j

/-- The capture of `(?<=_)(.*)(?=#EXT#)` when the match starts at the head of
`t` (the character before `t` was `_`). -/
def greedyCapture (t : List Char) : Option (List Char) := gcAux t t.length

/-- `re.findall("(?<=_)(.*)(?=#EXT#)", s)[0]`: the scan tries each position
left to right; a position qualifies when the previous character is `_` and
the greedy capture succeeds there. -/
def scanED : List Char → Option (List Char)
  | [] => Option.none
  | c :: rest =>
    if c = '_' then
      match greedyCapture rest with
      | some cap => some cap
      | Option.none => scanED rest
    else scanED rest

/-- `helpers.is_external_domain`. -/
def is_external_domain (s : String) : String :=
  match scanED s.data with
  | some cap => String.mk cap
  | Option.none => "N/A"

/-- Greedy backtracking of `(.*)(?=$)` after a fixed start: without
`MULTILINE`, `$` matches at the end of the string or just before a final
newline, and `.` cannot cross a newline. -/
def dollarCapture (t : List Char) : Option (List Char) :=
  if t.contains '\n' = false then some t
  else if t.getLast? = some '\n' && (t.dropLast.contains '\n') = false then some t.dropLast
  else Option.none

/-- `re.findall("(?<=@)(.*)(?=$)", s)[0]`: scan positions left to right,
qualifying when the previous character is `@` and the dollar-anchored capture
succeeds. -/
def scanTD : List Char → Option (List Char)
  | [] => Option.none
  | c :: rest =>
    if c = '@' then
      match dollarCapture rest with
      | some cap => some cap
      | Option.none => scanTD rest
    else scanTD rest

/-- `helpers.get_tenant_domain`. -/
def get_tenant_domain (s : String) : String :=
  match scanTD s.data with
  | some cap => String.mk cap
  | Option.none => "N/A"

/-- Coercion used where Python would require a `str` (a `TypeError`
otherwise). -/
def asPyStr : PyVal → Option String
  | PyVal.str s => some s
  | _ => Option.none

/-- Coercion used where Python subscripts a dict. -/
def asPyDict : PyVal → Option (List (String × PyVal))
  | PyVal.dict kvs => some kvs
  | _ => Option.none

/-- The values `strptime` tolerates as `is_datetime` input: `None` or a
string; anything else is a `TypeError`. -/
def asStrOrNone : PyVal → Option (Option String)
  | PyVal.none => some Option.none
  | PyVal.str s => some (some s)
  | _ => Option.none

/-- `helpers.get_mfa_methods`: a falsy value (`None`, empty list, …) yields
the literal `"No AAD MFA configured"`; a non-empty list of strings is
deduplicated (`set(item)` — the set's iteration order is modelled by
`List.dedup`) and comma-joined.  A truthy non-list (on which `",".join`
would iterate differently or raise) is outside the payloads this field
carries and is modelled as a failure. -/
def get_mfa_methods (item : PyVal) : Option String :=
  if pyTruthy item then
    match item with
    | PyVal.list xs =>
      (mapOpt asPyStr xs).map (fun ss => String.intercalate "," ss.dedup)
    | _ => Option.none
  else some "No AAD MFA configured"

/-- The response post-processing of `helpers.get_url` (the transport part —
issuing the GET and decoding JSON — is external): inject the requested id
when the payload has none, and an empty sign-in-activity record when the
payload has none.  Python dict assignment appends a new key at the end. -/
def get_url (user_id : String) (response : List (String × PyVal)) :
    List (String × PyVal) :=
  let r1 :=
    if (pyLookup response "id").isNone then response ++ [("id", PyVal.str user_id)]
    else response
  if (pyLookup r1 "signInActivity").isNone then
    r1 ++ [("signInActivity", PyVal.dict
      [("lastSignInDateTime", PyVal.none),
       ("lastNonInteractiveSignInDateTime", PyVal.none)])]
  else r1

/-- `helpers.get_aad_users`: one request per id, gathered with
`asyncio.gather`, which returns the results in the order of the submitted
tasks; the network is abstracted as the function `fetch` from a user id to
the decoded JSON payload of its response. -/
def get_aad_users (fetch : String → List (String × PyVal)) (user_ids : List String) :
    List (List (String × PyVal)) :=
  user_ids.map (fun user_id => get_url user_id (fetch user_id))

/-- Python `{**a, **b}`: the keys of `a` in order with `b`'s value when `b`
also binds the key, followed by the keys of `b` not in `a`, in order. -/
def pyDictMerge {α : Type} (a b : List (String × α)) : List (String × α) :=
  a.map (fun kv => (kv.1, (pyLookup b kv.1).getD kv.2)) ++
    b.filter (fun kv => (pyLookup a kv.1).isNone)

/-- The merge in `main.main`:
`[{**auth[uid], **aad[uid]} for uid in auth.keys()]`, where a missing key is
a `KeyError`. -/
def user_details_merged {α : Type} (auth aad : List (String × List (String × α))) :
    Option (List (List (String × α))) :=
  mapOpt (fun uid =>
    match pyLookup auth uid, pyLookup aad uid with
    | some ra, some rb => some (pyDictMerge ra rb)
    | _, _ => Option.none) (auth.map Prod.fst)

/-- One row of `helpers.xlsx_dict_prep`: each column value as computed in the
source's dict literal; a missing key or a value of the wrong shape raises
(`Option.none`), and `is_datetime`'s `ValueError` on the two sign-in columns
propagates uncaught. -/
def xlsx_dict_prep_row (x : List (String × PyVal)) : Option (List (String × PyVal)) :=
  match pyLookup x "id" with
  | Option.none => Option.none
  | some vid =>
  match pyLookup x "accountEnabled" with
  | Option.none => Option.none
  | some en =>
  match pyLookup x "userDisplayName" with
  | Option.none => Option.none
  | some dn =>
  match pyLookup x "userPrincipalName" with
  | Option.none => Option.none
  | some upnV =>
  match asPyStr upnV with
  | Option.none => Option.none
  | some upn =>
  match pyLookup x "externalUserState" with
  | Option.none => Option.none
  | some eus =>
  match pyLookup x "externalUserStateChangeDateTime" with
  | Option.none => Option.none
  | some eusc =>
  match pyLookup x "methodsRegistered" with
  | Option.none => Option.none
  | some mr =>
  match get_mfa_methods mr with
  | Option.none => Option.none
  | some mrS =>
  match pyLookup x "onPremisesSyncEnabled" with
  | Option.none => Option.none
  | some ops =>
  match pyLookup x "signInActivity" with
  | Option.none => Option.none
  | some siaV =>
  match asPyDict siaV with
  | Option.none => Option.none
  | some sia =>
  match pyLookup sia "lastSignInDateTime" with
  | Option.none => Option.none
  | some l1V =>
  match asStrOrNone l1V with
  | Option.none => Option.none
  | some l1 =>
  match (is_datetime l1).toOption with
  | Option.none => Option.none
  | some r1 =>
  match pyLookup sia "lastNonInteractiveSignInDateTime" with
  | Option.none => Option.none
  | some l2V =>
  match asStrOrNone l2V with
  | Option.none => Option.none
  | some l2 =>
  match (is_datetime l2).toOption with
  | Option.none => Option.none
  | some r2 =>
  some [("userId", vid),
        ("isEnabled", item_to_string en),
        ("userDisplayName", dn),
        ("userPrincipalName", upnV),
        ("isExternal", is_external upn),
        ("externalDomain", PyVal.str (is_external_domain upn)),
        ("externalUserState", item_to_string eus),
        ("externalUserStateLastChangeUTC", item_to_string eusc),
        ("tenantDomain", PyVal.str (get_tenant_domain upn)),
        ("methodsRegistered", PyVal.str mrS),
        ("onPremisesSyncEnabled", item_to_string ops),
        ("lastInteractiveSignInUTC", PyVal.str r1),
        ("lastNonInteractiveSignInUTC", PyVal.str r2)]

/-- `helpers.xlsx_dict_prep`: the comprehension over the merged records. -/
def xlsx_dict_prep (data : List (List (String × PyVal))) :
    Option (List (List (String × PyVal))) :=
  mapOpt xlsx_dict_prep_row data

/-- The top-level keys `xlsx_dict_prep` subscripts on every merged record. -/
def requiredTopFields : List String :=
  ["id", "accountEnabled", "userDisplayName", "userPrincipalName",
   "externalUserState", "externalUserStateChangeDateTime", "methodsRegistered",
   "onPremisesSyncEnabled", "signInActivity"]

/-- Whether a fetched record carries a given user id, for counting results by
content. -/
def idMatches (uid : String) (r : List (String × PyVal)) : Bool :=
  match pyLookup r "id" with
  | some (PyVal.str y) => y == uid
  | _ => false

/-- Modelled from the spec (for the amended extraction claims): the offset of
the last occurrence of `#EXT#` in `t`, scanning offsets downward. -/
def lastMarkerAux (t : List Char) : Nat → Option Nat
  | 0 => if extMarker.isPrefixOf t then some 0 else Option.none
  | j + 1 =>
    if extMarker.isPrefixOf (t.drop (j + 1)) then some (j + 1) else lastMarkerAux t j

/-- Modelled from the spec: index of the last `#EXT#` occurrence. -/
def lastMarkerIdx (t : List Char) : Option Nat := lastMarkerAux t t.length

/-- Modelled from the spec: does the string contain a `_` with a later
`#EXT#` occurrence (the shape on which the external-domain regex can match at
all)? -/
def hasUnderscoreMarker : List Char → Bool
  | [] => false
  | c :: rest => (c = '_' && containsMarker rest) || hasUnderscoreMarker rest

/-- First-biased choice, used to describe dict lookups after merges and
appends. -/
def optOr {α : Type} : Option α → Option α → Option α
  | some v, _ => some v
  | Option.none, b => b

/-! ### Lemmas about the regex scans -/

lemma scanTD_append (u v : List Char) (hu : '@' ∉ u) :
    scanTD (u ++ '@' :: v) = scanTD ('@' :: v) := by
  induction u with
  | nil => rfl
  | cons c u ih =>
    have hc : c ≠ '@' := by intro h; exact hu (h ▸ List.mem_cons_self c u)
    have hu2 : '@' ∉ u := fun h => hu (List.mem_cons_of_mem c h)
    rw [List.cons_append, scanTD, if_neg hc, ih hu2]

lemma scanTD_eq_none (l : List Char) (h : '@' ∉ l) : scanTD l = Option.none := by
  induction l with
  | nil => rfl
  | cons c l ih =>
    have hc : c ≠ '@' := by intro he; exact h (he ▸ List.mem_cons_self c l)
    have h2 : '@' ∉ l := fun hm => h (List.mem_cons_of_mem c hm)
    simp only [scanTD, if_neg hc, ih h2]

lemma dollarCapture_no_newline (v : List Char) (hv : '\n' ∉ v) :
    dollarCapture v = some v := by
  have h : v.contains '\n' = false := by simpa using hv
  unfold dollarCapture
  rw [if_pos h]

lemma scanED_append (u t : List Char) (hu : '_' ∉ u) :
    scanED (u ++ '_' :: t) = scanED ('_' :: t) := by
  induction u with
  | nil => rfl
  | cons c u ih =>
    have hc : c ≠ '_' := by intro h; exact hu (h ▸ List.mem_cons_self c u)
    have hu2 : '_' ∉ u := fun h => hu (List.mem_cons_of_mem c h)
    rw [List.cons_append, scanED, if_neg hc, ih hu2]

lemma containsMarker_of_drop (t : List Char) (j : Nat)
    (h : extMarker.isPrefixOf (t.drop j) = true) : containsMarker t = true := by
  induction j generalizing t with
  | zero =>
    cases t with
    | nil => simp [extMarker, List.isPrefixOf] at h
    | cons c rest => simp only [containsMarker]; rw [List.drop_zero] at h; simp [h]
  | succ j ih =>
    cases t with
    | nil => simp [extMarker, List.isPrefixOf] at h
    | cons c rest =>
      simp only [List.drop_succ_cons] at h
      simp only [containsMarker, ih rest h, Bool.or_true]

lemma gcAux_marker (t : List Char) (j : Nat) (cap : List Char)
    (h : gcAux t j = some cap) : containsMarker t = true := by
  induction j with
  | zero =>
    by_cases hp : extMarker.isPrefixOf t = true
    · exact containsMarker_of_drop t 0 (by simpa using hp)
    · simp [gcAux, hp] at h
  | succ j ih =>
    by_cases hp : extMarker.isPrefixOf (t.drop (j + 1)) = true
    · exact containsMarker_of_drop t (j + 1) hp
    · rw [gcAux, if_neg (by simp [hp])] at h
      exact ih h

lemma scanED_eq_none (l : List Char) (h : hasUnderscoreMarker l = false) :
    scanED l = Option.none := by
  induction l with
  | nil => rfl
  | cons c l ih =>
    rw [hasUnderscoreMarker] at h
    rcases Bool.or_eq_false_iff.mp h with ⟨h1, h2⟩
    by_cases hc : c = '_'
    · subst hc
      have hm : containsMarker l = false := by simpa using h1
      rw [scanED, if_pos rfl]
      cases hg : greedyCapture l with
      | none => exact ih h2
      | some cap =>
        have := gcAux_marker l l.length cap hg
        rw [this] at hm; cases hm
    · rw [scanED, if_neg hc]; exact ih h2

lemma lastMarkerAux_gcAux (t : List Char) (j i : Nat)
    (h : lastMarkerAux t j = some i) (hnl : '\n' ∉ t.take i) :
    gcAux t j = some (t.take i) := by
  induction j with
  | zero =>
    by_cases hp : extMarker.isPrefixOf t = true
    · rw [lastMarkerAux, if_pos hp] at h
      cases h
      rw [gcAux, if_pos hp]
      simp
    · rw [lastMarkerAux, if_neg hp] at h; cases h
  | succ j ih =>
    by_cases hp : extMarker.isPrefixOf (t.drop (j + 1)) = true
    · rw [lastMarkerAux, if_pos hp] at h
      cases h
      have hc : (t.take (j + 1)).contains '\n' = false := by simpa using hnl
      rw [gcAux, if_pos (by simp [hp, hc, hnl])]
    · rw [lastMarkerAux, if_neg hp] at h
      rw [gcAux, if_neg (by simp [hp])]
      exact ih h

/-! ### Claims about the extraction and display normalizers -/

/-- C4 (amended): if the string decomposes as `u ++ '_' :: t` with no `_` in
`u` (so the regex scan first matches right after that `_`) and the last
occurrence of `#EXT#` in `t` starts at offset `i` with no newline among the
first `i` characters, then `is_external_domain` returns exactly those first
`i` characters of `t` — the capture runs from the first `_` that the marker
follows up to the last occurrence of the marker, not from the last `_`
before the marker.  A string with no `_` followed by the marker yields
"N/A". -/
theorem c4_external_domain_amended :
    (∀ u t : List Char, ∀ i : Nat, '_' ∉ u → lastMarkerIdx t = some i →
      '\n' ∉ t.take i →
      is_external_domain (String.mk (u ++ '_' :: t)) = String.mk (t.take i)) ∧
    (∀ s : String, hasUnderscoreMarker s.data = false →
      is_external_domain s = "N/A") := by
  constructor
  · intro u t i hu hlast hnl
    have h2 : greedyCapture t = some (t.take i) :=
      lastMarkerAux_gcAux t t.length i hlast hnl
    have h1 : scanED (u ++ '_' :: t) = some (t.take i) := by
      rw [scanED_append u t hu, scanED, if_pos rfl, h2]
    unfold is_external_domain
    rw [show (String.mk (u ++ '_' :: t)).data = u ++ '_' :: t from rfl, h1]
  · intro s hs
    unfold is_external_domain
    rw [scanED_eq_none s.data hs]

/-- C4 witness: the spec's own example, via the amended theorem. -/
theorem c4_witness :
    is_external_domain
        (String.mk ("john".data ++ '_' :: "contoso.com#EXT#@tenant.onmicrosoft.com".data)) =
      String.mk ("contoso.com#EXT#@tenant.onmicrosoft.com".data.take 11) :=
  c4_external_domain_amended.1 "john".data
    "contoso.com#EXT#@tenant.onmicrosoft.com".data 11 (by decide) (by decide) (by decide)

/-- C4 counterexample: on `"a_b_c#EXT#x"` the code captures from the FIRST
`_` (giving `"b_c"`), not from the last `_` before the marker (which would
give `"c"`). -/
theorem c4_counterexample :
    is_external_domain "a_b_c#EXT#x" = "b_c" ∧ is_external_domain "a_b_c#EXT#x" ≠ "c" :=
  ⟨rfl, by decide⟩

/-- C5 (amended): for a string decomposing as `u ++ '@' :: v` with no `@` in
`u` and no newline in `v`, `get_tenant_domain` returns everything after the
FIRST `@` (not the last); with no `@` at all it returns "N/A". -/
theorem c5_tenant_domain_amended :
    (∀ u v : List Char, '@' ∉ u → '\n' ∉ v →
      get_tenant_domain (String.mk (u ++ '@' :: v)) = String.mk v) ∧
    (∀ s : String, '@' ∉ s.data → get_tenant_domain s = "N/A") := by
  constructor
  · intro u v hu hv
    have h1 : scanTD (u ++ '@' :: v) = some v := by
      rw [scanTD_append u v hu, scanTD, if_pos rfl, dollarCapture_no_newline v hv]
    unfold get_tenant_domain
    rw [show (String.mk (u ++ '@' :: v)).data = u ++ '@' :: v from rfl, h1]
  · intro s hs
    unfold get_tenant_domain
    rw [scanTD_eq_none s.data hs]

/-- C5 witness: the spec's own example, via the amended theorem. -/
theorem c5_witness :
    get_tenant_domain (String.mk ("jane".data ++ '@' :: "tenant.onmicrosoft.com".data)) =
      String.mk "tenant.onmicrosoft.com".data ∧
    get_tenant_domain "noatsign" = "N/A" :=
  ⟨c5_tenant_domain_amended.1 "jane".data "tenant.onmicrosoft.com".data
      (by decide) (by decide),
    c5_tenant_domain_amended.2 "noatsign" (by decide)⟩

/-- C5 counterexample: on `"a@b@c"` the code returns `"b@c"` — everything
after the FIRST `@` — while the claim's "everything after the last `@`"
would be `"c"`. -/
theorem c5_counterexample :
    get_tenant_domain "a@b@c" = "b@c" ∧ get_tenant_domain "a@b@c" ≠ "c" :=
  ⟨rfl, by decide⟩

/-- C8: `item_to_string` maps `None` to "N/A", `True` to "Yes", `False` to
"No", delegates strings to the timestamp rule `is_datetime`, and returns any
other value unchanged. -/
theorem c8_to_display_string :
    item_to_string PyVal.none = PyVal.str "N/A" ∧
    item_to_string (PyVal.bool true) = PyVal.str "Yes" ∧
    item_to_string (PyVal.bool false) = PyVal.str "No" ∧
    (∀ s r, is_datetime (some s) = Except.ok r →
      item_to_string (PyVal.str s) = PyVal.str r) ∧
    (∀ n : Int, item_to_string (PyVal.int n) = PyVal.int n) ∧
    (∀ xs, item_to_string (PyVal.list xs) = PyVal.list xs) ∧
    (∀ kvs, item_to_string (PyVal.dict kvs) = PyVal.dict kvs) := by
  refine ⟨rfl, rfl, rfl, ?_, fun n => rfl, fun xs => rfl, fun kvs => rfl⟩
  intro s r h
  simp only [item_to_string]
  rw [h]

/-- C8 witness: the delegation case at a concrete timestamp string. -/
theorem c8_witness :
    item_to_string (PyVal.str "2000-01-01T00:00:00Z") = PyVal.str "2000-01-01T00:00:00" :=
  c8_to_display_string.2.2.2.1 "2000-01-01T00:00:00Z" "2000-01-01T00:00:00" rfl

/-- C10: the empty string is routed to `is_datetime`, which treats it as
absent (falsy) and returns "N/A" instead of raising, so `item_to_string`
maps `""` to "N/A" rather than passing it through. -/
theorem c10_empty_string :
    item_to_string (PyVal.str "") = PyVal.str "N/A" ∧
    is_datetime (some "") = Except.ok "N/A" :=
  ⟨rfl, rfl⟩

/-- C3 (amended): every non-empty string rejected by `strptime` (whose
lenient format also accepts one-digit month, day, hour, minute and second
fields and lowercase `t`/`z` literals, so rejection is strictly weaker than
"not of the shape YYYY-MM-DDTHH:MM:SSZ") makes `is_datetime` raise a
`ValueError` rather than return a fallback, and such a string is passed
through unchanged only on the `item_to_string` path, which catches the
error. -/
theorem c3_malformed_raises (s : String) (hne : s ≠ "")
    (hbad : strptime s = Option.none) :
    is_datetime (some s) = Except.error PyErr.valueError ∧
    item_to_string (PyVal.str s) = PyVal.str s := by
  have h1 : is_datetime (some s) = Except.error PyErr.valueError := by
    show (if s = "" then Except.ok "N/A"
      else match strptime s with
        | Option.none => Except.error PyErr.valueError
        | some d =>
          if 1999 < d.year then Except.ok (isoformat d) else Except.ok "Never") =
      Except.error PyErr.valueError
    rw [if_neg hne, hbad]
  refine ⟨h1, ?_⟩
  simp only [item_to_string]
  rw [h1]

/-- C3 witness: a malformed string raises and is passed through by
`item_to_string`. -/
theorem c3_witness :
    is_datetime (some "garbage") = Except.error PyErr.valueError ∧
    item_to_string (PyVal.str "garbage") = PyVal.str "garbage" :=
  c3_malformed_raises "garbage" (by decide) rfl

/-- C3 counterexample: `"2023-5-01T12:00:00Z"` is not a well-formed
`YYYY-MM-DDTHH:MM:SSZ` string (one-digit month), yet `is_datetime` accepts
it and returns a value instead of raising. -/
theorem c3_counterexample :
    is_datetime (some "2023-5-01T12:00:00Z") = Except.ok "2023-05-01T12:00:00" := rfl

/-! ### Round-trip of `strptime` on canonically formatted timestamps -/

lemma cval_digitChar (n : Nat) (h : n < 10) : cval (digitChar n) = n := by
  interval_cases n <;> rfl

lemma digitChar_bounds (n : Nat) (h : n < 10) :
    '0' ≤ digitChar n ∧ digitChar n ≤ '9' := by
  interval_cases n <;> exact ⟨by decide, by decide⟩

lemma parseY_pad4 (y : Nat) (hy : y ≤ 9999) :
    ∀ rest : List Char, parseY (pad4 y ++ rest) = some (y, rest) := by
  intro rest
  have b1 : y / 1000 % 10 < 10 := Nat.mod_lt _ (by norm_num)
  have b2 : y / 100 % 10 < 10 := Nat.mod_lt _ (by norm_num)
  have b3 : y / 10 % 10 < 10 := Nat.mod_lt _ (by norm_num)
  have b4 : y % 10 < 10 := Nat.mod_lt _ (by norm_num)
  show parseY (digitChar (y / 1000 % 10) :: digitChar (y / 100 % 10) ::
      digitChar (y / 10 % 10) :: digitChar (y % 10) :: rest) = some (y, rest)
  rw [parseY, if_pos ⟨⟨digitChar_bounds _ b1, digitChar_bounds _ b2⟩,
    ⟨digitChar_bounds _ b3, digitChar_bounds _ b4⟩⟩]
  rw [cval_digitChar _ b1, cval_digitChar _ b2, cval_digitChar _ b3, cval_digitChar _ b4]
  have harith : ((y / 1000 % 10 * 10 + y / 100 % 10) * 10 + y / 10 % 10) * 10 + y % 10 = y := by
    omega
  rw [harith]

lemma parseMonth_pad2 (m : Nat) (h1 : 1 ≤ m) (h2 : m ≤ 12) :
    ∀ rest : List Char, parseMonth (pad2 m ++ rest) = some (m, rest) := by
  interval_cases m <;> exact fun rest => rfl

lemma parseDay_pad2 (d : Nat) (h1 : 1 ≤ d) (h2 : d ≤ 31) :
    ∀ rest : List Char, parseDay (pad2 d ++ rest) = some (d, rest) := by
  interval_cases d <;> exact fun rest => rfl

lemma parseHour_pad2 (h : Nat) (h2 : h ≤ 23) :
    ∀ rest : List Char, parseHour (pad2 h ++ rest) = some (h, rest) := by
  interval_cases h <;> exact fun rest => rfl

lemma parseMin_pad2 (m : Nat) (h2 : m ≤ 59) :
    ∀ rest : List Char, parseMin (pad2 m ++ rest) = some (m, rest) := by
  interval_cases m <;> exact fun rest => rfl

lemma parseSec_pad2 (s : Nat) (h2 : s ≤ 59) :
    ∀ rest : List Char, parseSec (pad2 s ++ rest) = some (s, rest) := by
  interval_cases s <;> exact fun rest => rfl

lemma daysInMonth_le (y m : Nat) : daysInMonth y m ≤ 31 := by
  unfold daysInMonth
  split_ifs <;> omega

lemma strptimeFields_fmt (y mo d h mi s : Nat) (hy : y ≤ 9999)
    (hm1 : 1 ≤ mo) (hm2 : mo ≤ 12) (hd1 : 1 ≤ d) (hd31 : d ≤ 31)
    (hh : h ≤ 23) (hmi : mi ≤ 59) (hs : s ≤ 59) :
    strptimeFields ((pad4 y ++ '-' :: pad2 mo ++ '-' :: pad2 d ++ 'T' :: pad2 h ++
      ':' :: pad2 mi ++ ':' :: pad2 s) ++ ['Z']) = some ⟨y, mo, d, h, mi, s⟩ := by
  simp only [List.append_assoc, List.cons_append]
  simp [strptimeFields, parseY_pad4 y hy, parseLit, parseMonth_pad2 mo hm1 hm2,
    parseDay_pad2 d hd1 hd31, parseLitT, parseHour_pad2 h hh, parseMin_pad2 mi hmi,
    parseSec_pad2 s hs, parseLitZ]

lemma strptime_fmtZ (y mo d h mi s : Nat) (hy1 : 1 ≤ y) (hy : y ≤ 9999)
    (hm1 : 1 ≤ mo) (hm2 : mo ≤ 12) (hd1 : 1 ≤ d) (hd2 : d ≤ daysInMonth y mo)
    (hh : h ≤ 23) (hmi : mi ≤ 59) (hs : s ≤ 59) :
    strptime (fmtZ y mo d h mi s) = some ⟨y, mo, d, h, mi, s⟩ := by
  have hd31 : d ≤ 31 := le_trans hd2 (daysInMonth_le y mo)
  have hf : strptimeFields (fmtZ y mo d h mi s).data = some ⟨y, mo, d, h, mi, s⟩ :=
    strptimeFields_fmt y mo d h mi s hy hm1 hm2 hd1 hd31 hh hmi hs
  simp [strptime, hf, hy1, hy, hm1, hm2, hd1, hd2, hh, hmi, hs]

/-- C2: `is_datetime` returns "N/A" on an absent or empty input; on a
well-formed `YYYY-MM-DDTHH:MM:SSZ` string (zero-padded fields denoting a
valid calendar datetime, so a parsed year exists: year 1–9999, day within
the month, hour/minute/second in range) it returns "Never" when the parsed
year is at most 1999 and otherwise the `isoformat` rendering of the very
same fields — i.e. the canonical ISO-8601 form of the same instant, the
input minus its `Z` designator.  In particular the two examples of the
spec hold. -/
theorem c2_parse_timestamp :
    is_datetime Option.none = Except.ok "N/A" ∧
    is_datetime (some "") = Except.ok "N/A" ∧
    is_datetime (some "1998-01-01T00:00:00Z") = Except.ok "Never" ∧
    is_datetime (some "2023-05-01T12:00:00Z") = Except.ok "2023-05-01T12:00:00" ∧
    (∀ y mo d h mi s : Nat, 1 ≤ y → y ≤ 9999 → 1 ≤ mo → mo ≤ 12 → 1 ≤ d →
      d ≤ daysInMonth y mo → h ≤ 23 → mi ≤ 59 → s ≤ 59 →
      (fmtZ y mo d h mi s).data = (isoformat ⟨y, mo, d, h, mi, s⟩).data ++ ['Z'] ∧
      is_datetime (some (fmtZ y mo d h mi s)) =
        Except.ok (if 1999 < y then isoformat ⟨y, mo, d, h, mi, s⟩ else "Never")) := by
  refine ⟨rfl, rfl, rfl, rfl, ?_⟩
  intro y mo d h mi s hy1 hy hm1 hm2 hd1 hd2 hh hmi hs
  refine ⟨rfl, ?_⟩
  have hdata : (fmtZ y mo d h mi s).data ≠ [] := by
    show ((isoformat ⟨y, mo, d, h, mi, s⟩).data ++ ['Z']) ≠ []
    simp
  have hne : fmtZ y mo d h mi s ≠ "" := fun he => hdata (congrArg String.data he)
  have hst := strptime_fmtZ y mo d h mi s hy1 hy hm1 hm2 hd1 hd2 hh hmi hs
  show (if fmtZ y mo d h mi s = "" then Except.ok "N/A"
    else match strptime (fmtZ y mo d h mi s) with
      | Option.none => Except.error PyErr.valueError
      | some dd =>
        if 1999 < dd.year then Except.ok (isoformat dd) else Except.ok "Never") =
    Except.ok (if 1999 < y then isoformat ⟨y, mo, d, h, mi, s⟩ else "Never")
  rw [if_neg hne, hst]
  show (if 1999 < y then Except.ok (isoformat ⟨y, mo, d, h, mi, s⟩)
      else Except.ok "Never") =
    Except.ok (if 1999 < y then isoformat ⟨y, mo, d, h, mi, s⟩ else "Never")
  by_cases hy99 : 1999 < y
  · rw [if_pos hy99, if_pos hy99]
  · rw [if_neg hy99, if_neg hy99]

/-- C2 witness: the general statement applied at the two canonical
instants named by the spec. -/
theorem c2_witness :
    is_datetime (some (fmtZ 1998 1 1 0 0 0)) = Except.ok "Never" ∧
    is_datetime (some (fmtZ 2023 5 1 12 0 0)) =
      Except.ok (isoformat ⟨2023, 5, 1, 12, 0, 0⟩) := by
  have h1 := (c2_parse_timestamp.2.2.2.2 1998 1 1 0 0 0 (by norm_num) (by norm_num)
    (by norm_num) (by norm_num) (by norm_num) (by decide) (by norm_num) (by norm_num)
    (by norm_num)).2
  have h2 := (c2_parse_timestamp.2.2.2.2 2023 5 1 12 0 0 (by norm_num) (by norm_num)
    (by norm_num) (by norm_num) (by norm_num) (by decide) (by norm_num) (by norm_num)
    (by norm_num)).2
  refine ⟨?_, ?_⟩
  · rw [h1]; rfl
  · rw [h2]; rfl

/-! ### Lemmas about dict lookup, merge, and comprehensions -/

lemma optOr_none {α : Type} (a : Option α) : optOr a Option.none = a := by
  cases a <;> rfl

lemma pyLookup_append {α : Type} (l m : List (String × α)) (k : String) :
    pyLookup (l ++ m) k = optOr (pyLookup l k) (pyLookup m k) := by
  induction l with
  | nil => rfl
  | cons kv rest ih =>
    obtain ⟨k1, v1⟩ := kv
    by_cases hk : k1 = k
    · rw [List.cons_append, pyLookup, if_pos hk, pyLookup, if_pos hk]; rfl
    · rw [List.cons_append, pyLookup, if_neg hk, pyLookup, if_neg hk, ih]

lemma pyLookup_map_override {α : Type} (a b : List (String × α)) (k : String) :
    pyLookup (a.map fun kv => (kv.1, (pyLookup b kv.1).getD kv.2)) k =
      (pyLookup a k).map (fun v => (pyLookup b k).getD v) := by
  induction a with
  | nil => rfl
  | cons kv rest ih =>
    obtain ⟨k1, v1⟩ := kv
    by_cases hk : k1 = k
    · subst hk
      rw [List.map_cons, pyLookup, pyLookup]
      simp
    · rw [List.map_cons, pyLookup, if_neg hk, pyLookup, if_neg hk, ih]

lemma pyLookup_filter_notin {α : Type} (a b : List (String × α)) (k : String) :
    pyLookup (b.filter fun kv => (pyLookup a kv.1).isNone) k =
      if (pyLookup a k).isNone then pyLookup b k else Option.none := by
  induction b with
  | nil => simp [pyLookup]
  | cons kv rest ih =>
    obtain ⟨k1, v1⟩ := kv
    by_cases ha : (pyLookup a k1).isNone
    · rw [List.filter_cons_of_pos (by simpa using ha), pyLookup]
      by_cases hk : k1 = k
      · subst hk
        rw [if_pos rfl, if_pos ha, pyLookup, if_pos rfl]
      · rw [if_neg hk, ih, pyLookup, if_neg hk]
    · rw [List.filter_cons_of_neg (by simpa using ha), ih]
      by_cases hk : k1 = k
      · subst hk
        rw [if_neg ha, pyLookup, if_pos rfl, if_neg ha]
      · rw [pyLookup, if_neg hk]

lemma pyLookup_pyDictMerge {α : Type} (a b : List (String × α)) (k : String) :
    pyLookup (pyDictMerge a b) k = optOr (pyLookup b k) (pyLookup a k) := by
  unfold pyDictMerge
  rw [pyLookup_append, pyLookup_map_override, pyLookup_filter_notin]
  cases ha : pyLookup a k <;> cases hb : pyLookup b k <;> simp [optOr]

lemma mapOpt_eq_some_map {α β : Type} (f : α → Option β) (g : α → β) (xs : List α)
    (h : ∀ x ∈ xs, f x = some (g x)) : mapOpt f xs = some (xs.map g) := by
  induction xs with
  | nil => rfl
  | cons a l ih =>
    have ha := h a (List.mem_cons_self a l)
    have hl := ih (fun x hx => h x (List.mem_cons_of_mem a hx))
    simp [mapOpt, ha, hl]

lemma mapOpt_eq_none {α β : Type} (f : α → Option β) (xs : List α) (x : α)
    (hx : x ∈ xs) (hf : f x = Option.none) : mapOpt f xs = Option.none := by
  induction xs with
  | nil => cases hx
  | cons a l ih =>
    rcases List.mem_cons.mp hx with h | h
    · subst h; simp [mapOpt, hf]
    · cases hfa : f a
      · simp [mapOpt, hfa]
      · simp [mapOpt, hfa, ih h]

lemma pyLookup_isSome_of_mem {α : Type} (l : List (String × α)) (k : String)
    (h : k ∈ l.map Prod.fst) : (pyLookup l k).isSome := by
  induction l with
  | nil => simp at h
  | cons kv rest ih =>
    obtain ⟨k1, v1⟩ := kv
    by_cases hk : k1 = k
    · rw [pyLookup, if_pos hk]; rfl
    · have hm : k ∈ rest.map Prod.fst := by
        rw [List.map_cons] at h
        rcases List.mem_cons.mp h with he | hm
        · exact absurd he.symm hk
        · exact hm
      rw [pyLookup, if_neg hk]
      exact ih hm

lemma pyLookup_mem_nodup {α : Type} (l : List (String × α))
    (hnd : (l.map Prod.fst).Nodup) (kv : String × α) (h : kv ∈ l) :
    pyLookup l kv.1 = some kv.2 := by
  induction l with
  | nil => cases h
  | cons hd rest ih =>
    obtain ⟨k1, v1⟩ := hd
    rcases List.mem_cons.mp h with he | hm
    · subst he
      rw [pyLookup, if_pos rfl]
    · have hk1 : k1 ∉ rest.map Prod.fst := by
        have := hnd
        rw [List.map_cons, List.nodup_cons] at this
        exact this.1
      have hne : k1 ≠ kv.1 := by
        intro hcontra
        exact hk1 (hcontra ▸ List.mem_map_of_mem Prod.fst hm)
      have hrest : (rest.map Prod.fst).Nodup := by
        rw [List.map_cons, List.nodup_cons] at hnd
        exact hnd.2
      rw [pyLookup, if_neg hne]
      exact ih hrest hm

lemma countP_congr_mem {α : Type} (l : List α) (p q : α → Bool)
    (h : ∀ a ∈ l, p a = q a) : l.countP p = l.countP q := by
  induction l with
  | nil => rfl
  | cons a l ih =>
    simp only [List.countP_cons, h a (List.mem_cons_self a l)]
    rw [ih (fun b hb => h b (List.mem_cons_of_mem a hb))]

/-- C1: merging the authentication-registration mapping `auth` (the primary)
with the user-detail mapping `aad` (the secondary) produces, when every key
of `auth` occurs in `aad`, exactly one merged record per entry of `auth`
(so exactly `|auth|` records), namely `{**auth[uid], **aad[uid]}`; the
lookup behaviour of each such merged dict is the field-union in which the
secondary's fields override the primary's on conflict.  If some key of
`auth` is absent from `aad`, the merge raises (`Option.none`). -/
theorem c1_merge {α : Type} (auth aad : List (String × List (String × α)))
    (hnd : (auth.map Prod.fst).Nodup) :
    ((∀ uid ∈ auth.map Prod.fst, uid ∈ aad.map Prod.fst) →
      user_details_merged auth aad =
        some (auth.map (fun kv => pyDictMerge kv.2 ((pyLookup aad kv.1).getD []))) ∧
      (auth.map (fun kv => pyDictMerge kv.2 ((pyLookup aad kv.1).getD []))).length =
        auth.length) ∧
    (∀ a b : List (String × α), ∀ f,
      pyLookup (pyDictMerge a b) f = optOr (pyLookup b f) (pyLookup a f)) ∧
    ((∃ uid ∈ auth.map Prod.fst, pyLookup aad uid = Option.none) →
      user_details_merged auth aad = Option.none) := by
  refine ⟨?_, fun a b f => pyLookup_pyDictMerge a b f, ?_⟩
  · intro hsub
    constructor
    · unfold user_details_merged
      rw [mapOpt_eq_some_map _
        (fun uid => pyDictMerge ((pyLookup auth uid).getD []) ((pyLookup aad uid).getD []))
        _ ?hpt]
      case hpt =>
        intro uid hu
        obtain ⟨kv, hkv, hfst⟩ := List.mem_map.mp hu
        obtain ⟨rb, hrb⟩ := Option.isSome_iff_exists.mp
          (pyLookup_isSome_of_mem aad uid (hsub uid hu))
        have hra : pyLookup auth uid = some kv.2 := hfst ▸ pyLookup_mem_nodup auth hnd kv hkv
        show (match pyLookup auth uid, pyLookup aad uid with
          | some ra, some rb => some (pyDictMerge ra rb)
          | _, _ => Option.none) =
          some (pyDictMerge ((pyLookup auth uid).getD []) ((pyLookup aad uid).getD []))
        rw [hra, hrb]
        rfl
      · rw [List.map_map]
        refine congrArg some (List.map_congr_left ?_)
        intro kv hkv
        have hra : pyLookup auth kv.1 = some kv.2 := pyLookup_mem_nodup auth hnd kv hkv
        simp [Function.comp, hra]
    · exact List.length_map auth _
  · rintro ⟨uid, hmem, hnone⟩
    apply mapOpt_eq_none _ _ uid hmem
    obtain ⟨ra, hra⟩ := Option.isSome_iff_exists.mp (pyLookup_isSome_of_mem auth uid hmem)
    rw [hra, hnone]

/-- C1 witness: a two-user merge where the secondary record overrides the
shared field `x` and contributes new fields. -/
theorem c1_witness :
    user_details_merged
        [("u1", [("a", 1), ("x", 2)]), ("u2", [("b", 3)])]
        [("u2", [("c", 9)]), ("u1", [("x", 5), ("b", 7)])] =
      some [[("a", 1), ("x", 5), ("b", 7)], [("b", 3), ("c", 9)]] := by
  have h := (c1_merge [("u1", [("a", 1), ("x", 2)]), ("u2", [("b", 3)])]
    [("u2", [("c", 9)]), ("u1", [("x", 5), ("b", 7)])] (by decide)).1 (by decide)
  exact h.1.trans (by rfl)

/-! ### Lemmas about the fetcher post-processing -/

lemma pyLookup_get_url_id (uid : String) (resp : List (String × PyVal)) :
    pyLookup (get_url uid resp) "id" =
      (match pyLookup resp "id" with
        | Option.none => some (PyVal.str uid)
        | some v => some v) := by
  have e1 : pyLookup [("id", PyVal.str uid)] "id" = some (PyVal.str uid) := rfl
  have e2 : ∀ v : PyVal, pyLookup [("signInActivity", v)] "id" = Option.none :=
    fun v => rfl
  unfold get_url
  cases hid : pyLookup resp "id" <;>
    simp [pyLookup_append, hid, optOr, e1, e2] <;>
    split <;>
    simp [pyLookup_append, hid, optOr, e1, e2]
  all_goals rfl

lemma pyLookup_get_url_sia (uid : String) (resp : List (String × PyVal)) :
    pyLookup (get_url uid resp) "signInActivity" =
      (match pyLookup resp "signInActivity" with
        | Option.none => some (PyVal.dict
            [("lastSignInDateTime", PyVal.none),
             ("lastNonInteractiveSignInDateTime", PyVal.none)])
        | some v => some v) := by
  have e1 : pyLookup [("id", PyVal.str uid)] "signInActivity" = Option.none := rfl
  have e2 : ∀ v : PyVal, pyLookup [("signInActivity", v)] "signInActivity" = some v :=
    fun v => rfl
  unfold get_url
  cases hid : pyLookup resp "id" <;>
    cases hsia : pyLookup resp "signInActivity" <;>
    simp [pyLookup_append, hid, hsia, optOr, e1, e2]
  all_goals rfl

/-- C6: for a batch of `N` distinct ids whose raw responses either omit the
`id` field or echo the requested id, the fetcher returns exactly `N`
results, each input id occurs exactly once among the results (by content),
a response lacking `id` gets the requesting id injected, a response lacking
the sign-in-activity sub-structure gets one injected with both timestamps
explicitly absent, and every returned record carries a sign-in-activity
sub-structure. -/
theorem c6_fetcher (fetch : String → List (String × PyVal)) (ids : List String)
    (hnd : ids.Nodup)
    (hid : ∀ uid ∈ ids, pyLookup (fetch uid) "id" = Option.none ∨
      pyLookup (fetch uid) "id" = some (PyVal.str uid)) :
    (get_aad_users fetch ids).length = ids.length ∧
    (∀ uid ∈ ids, (get_aad_users fetch ids).countP (fun r => idMatches uid r) = 1) ∧
    (∀ uid : String, ∀ resp : List (String × PyVal), pyLookup resp "id" = Option.none →
      pyLookup (get_url uid resp) "id" = some (PyVal.str uid)) ∧
    (∀ uid : String, ∀ resp : List (String × PyVal),
      pyLookup resp "signInActivity" = Option.none →
      pyLookup (get_url uid resp) "signInActivity" =
        some (PyVal.dict [("lastSignInDateTime", PyVal.none),
          ("lastNonInteractiveSignInDateTime", PyVal.none)])) ∧
    (∀ r ∈ get_aad_users fetch ids, (pyLookup r "signInActivity").isSome) := by
  have hinj : ∀ uid resp, pyLookup resp "id" = Option.none →
      pyLookup (get_url uid resp) "id" = some (PyVal.str uid) := by
    intro uid resp h
    rw [pyLookup_get_url_id, h]
  have hsiainj : ∀ uid resp, pyLookup resp "signInActivity" = Option.none →
      pyLookup (get_url uid resp) "signInActivity" =
        some (PyVal.dict [("lastSignInDateTime", PyVal.none),
          ("lastNonInteractiveSignInDateTime", PyVal.none)]) := by
    intro uid resp h
    rw [pyLookup_get_url_sia, h]
  refine ⟨List.length_map ids _, ?_, hinj, hsiainj, ?_⟩
  · intro uid hu
    have hall : ∀ x ∈ ids, pyLookup (get_url x (fetch x)) "id" = some (PyVal.str x) := by
      intro x hx
      rcases hid x hx with h | h
      · exact hinj x (fetch x) h
      · rw [pyLookup_get_url_id, h]
    unfold get_aad_users
    rw [List.countP_map]
    have hcongr : ids.countP ((fun r => idMatches uid r) ∘ (fun x => get_url x (fetch x))) =
        ids.countP (fun x => x == uid) := by
      apply countP_congr_mem
      intro x hx
      show idMatches uid (get_url x (fetch x)) = (x == uid)
      rw [idMatches, hall x hx]
    rw [hcongr]
    exact List.count_eq_one_of_mem hnd hu
  · intro r hr
    obtain ⟨x, hx, hrx⟩ := List.mem_map.mp hr
    rw [← hrx, pyLookup_get_url_sia]
    cases pyLookup (fetch x) "signInActivity" <;> rfl

/-- C6 witness: two ids against a service whose raw responses lack both the
`id` field and the sign-in-activity sub-structure. -/
theorem c6_witness :
    (get_aad_users (fun _ => [("displayName", PyVal.str "X")]) ["u1", "u2"]).length = 2 ∧
    (get_aad_users (fun _ => [("displayName", PyVal.str "X")]) ["u1", "u2"]).countP
      (fun r => idMatches "u1" r) = 1 := by
  have h := c6_fetcher (fun _ => [("displayName", PyVal.str "X")]) ["u1", "u2"]
    (by decide) (fun uid _ => Or.inl rfl)
  exact ⟨h.1, h.2.1 "u1" (by decide)⟩

/-! ### Lemmas about the report row builder -/

lemma xlsx_row_some_fields (y r : List (String × PyVal))
    (h : xlsx_dict_prep_row y = some r) :
    (pyLookup y "id").isSome ∧ (pyLookup y "accountEnabled").isSome ∧
    (pyLookup y "userDisplayName").isSome ∧ (pyLookup y "userPrincipalName").isSome ∧
    (pyLookup y "externalUserState").isSome ∧
    (pyLookup y "externalUserStateChangeDateTime").isSome ∧
    (pyLookup y "methodsRegistered").isSome ∧
    (pyLookup y "onPremisesSyncEnabled").isSome ∧
    (pyLookup y "signInActivity").isSome := by
  unfold xlsx_dict_prep_row at h
  cases e1 : pyLookup y "id" with
  | none => rw [e1] at h; exact Option.noConfusion h
  | some v1 =>
  simp only [e1] at h
  cases e2 : pyLookup y "accountEnabled" with
  | none => rw [e2] at h; exact Option.noConfusion h
  | some v2 =>
  simp only [e2] at h
  cases e3 : pyLookup y "userDisplayName" with
  | none => rw [e3] at h; exact Option.noConfusion h
  | some v3 =>
  simp only [e3] at h
  cases e4 : pyLookup y "userPrincipalName" with
  | none => rw [e4] at h; exact Option.noConfusion h
  | some v4 =>
  simp only [e4] at h
  cases e5 : asPyStr v4 with
  | none => rw [e5] at h; exact Option.noConfusion h
  | some v5 =>
  simp only [e5] at h
  cases e6 : pyLookup y "externalUserState" with
  | none => rw [e6] at h; exact Option.noConfusion h
  | some v6 =>
  simp only [e6] at h
  cases e7 : pyLookup y "externalUserStateChangeDateTime" with
  | none => rw [e7] at h; exact Option.noConfusion h
  | some v7 =>
  simp only [e7] at h
  cases e8 : pyLookup y "methodsRegistered" with
  | none => rw [e8] at h; exact Option.noConfusion h
  | some v8 =>
  simp only [e8] at h
  cases e9 : get_mfa_methods v8 with
  | none => rw [e9] at h; exact Option.noConfusion h
  | some v9 =>
  simp only [e9] at h
  cases e10 : pyLookup y "onPremisesSyncEnabled" with
  | none => rw [e10] at h; exact Option.noConfusion h
  | some v10 =>
  simp only [e10] at h
  cases e11 : pyLookup y "signInActivity" with
  | none => rw [e11] at h; exact Option.noConfusion h
  | some v11 =>
  exact ⟨rfl, rfl, rfl, rfl, rfl, rfl, rfl, rfl, rfl⟩

/-- C7: on a merged record carrying all the required source fields with
payloads of the shapes the builder subscripts (a string principal name, a
dict sign-in-activity whose two timestamp fields are null-or-string and
parse without error, a methods collection accepted by `get_mfa_methods`),
`xlsx_dict_prep` produces exactly one row with exactly the thirteen columns
in the fixed order, each value computed by the corresponding field
normalizer on the matching source field; and if any required top-level
source field is missing from a record, `xlsx_dict_prep` raises instead of
defaulting. -/
theorem c7_row_builder (x : List (String × PyVal))
    (vid en dn : PyVal) (upn : String) (eus eusc mr : PyVal) (mrS : String)
    (ops : PyVal) (sia : List (String × PyVal)) (l1V l2V : PyVal)
    (l1 l2 : Option String) (r1 r2 : String)
    (h1 : pyLookup x "id" = some vid)
    (h2 : pyLookup x "accountEnabled" = some en)
    (h3 : pyLookup x "userDisplayName" = some dn)
    (h4 : pyLookup x "userPrincipalName" = some (PyVal.str upn))
    (h5 : pyLookup x "externalUserState" = some eus)
    (h6 : pyLookup x "externalUserStateChangeDateTime" = some eusc)
    (h7 : pyLookup x "methodsRegistered" = some mr)
    (h8 : get_mfa_methods mr = some mrS)
    (h9 : pyLookup x "onPremisesSyncEnabled" = some ops)
    (h10 : pyLookup x "signInActivity" = some (PyVal.dict sia))
    (h11 : pyLookup sia "lastSignInDateTime" = some l1V)
    (h12 : asStrOrNone l1V = some l1)
    (h13 : is_datetime l1 = Except.ok r1)
    (h14 : pyLookup sia "lastNonInteractiveSignInDateTime" = some l2V)
    (h15 : asStrOrNone l2V = some l2)
    (h16 : is_datetime l2 = Except.ok r2) :
    xlsx_dict_prep [x] =
      some [[("userId", vid),
        ("isEnabled", item_to_string en),
        ("userDisplayName", dn),
        ("userPrincipalName", PyVal.str upn),
        ("isExternal", is_external upn),
        ("externalDomain", PyVal.str (is_external_domain upn)),
        ("externalUserState", item_to_string eus),
        ("externalUserStateLastChangeUTC", item_to_string eusc),
        ("tenantDomain", PyVal.str (get_tenant_domain upn)),
        ("methodsRegistered", PyVal.str mrS),
        ("onPremisesSyncEnabled", item_to_string ops),
        ("lastInteractiveSignInUTC", PyVal.str r1),
        ("lastNonInteractiveSignInUTC", PyVal.str r2)]] ∧
    (∀ k ∈ requiredTopFields, ∀ y : List (String × PyVal),
      pyLookup y k = Option.none → xlsx_dict_prep [y] = Option.none) := by
  constructor
  · have hrow : xlsx_dict_prep_row x =
        some [("userId", vid),
          ("isEnabled", item_to_string en),
          ("userDisplayName", dn),
          ("userPrincipalName", PyVal.str upn),
          ("isExternal", is_external upn),
          ("externalDomain", PyVal.str (is_external_domain upn)),
          ("externalUserState", item_to_string eus),
          ("externalUserStateLastChangeUTC", item_to_string eusc),
          ("tenantDomain", PyVal.str (get_tenant_domain upn)),
          ("methodsRegistered", PyVal.str mrS),
          ("onPremisesSyncEnabled", item_to_string ops),
          ("lastInteractiveSignInUTC", PyVal.str r1),
          ("lastNonInteractiveSignInUTC", PyVal.str r2)] := by
      unfold xlsx_dict_prep_row
      simp only [h1, h2, h3, h4]
      simp only [show asPyStr (PyVal.str upn) = some upn from rfl]
      simp only [h5, h6, h7, h8, h9, h10]
      simp only [show asPyDict (PyVal.dict sia) = some sia from rfl]
      simp only [h11, h12, h13, h14, h15, h16, Except.toOption]
    unfold xlsx_dict_prep mapOpt
    rw [hrow]
    rfl
  · intro k hk y hy
    cases hrow : xlsx_dict_prep_row y with
    | none =>
      unfold xlsx_dict_prep mapOpt
      rw [hrow]
    | some r =>
      exfalso
      have hs := xlsx_row_some_fields y r hrow
      simp only [requiredTopFields, List.mem_cons, List.mem_singleton] at hk
      rcases hk with rfl | rfl | rfl | rfl | rfl | rfl | rfl | rfl | rfl | hk
      · rw [hy] at hs; exact Bool.noConfusion hs.1
      · rw [hy] at hs; exact Bool.noConfusion hs.2.1
      · rw [hy] at hs; exact Bool.noConfusion hs.2.2.1
      · rw [hy] at hs; exact Bool.noConfusion hs.2.2.2.1
      · rw [hy] at hs; exact Bool.noConfusion hs.2.2.2.2.1
      · rw [hy] at hs; exact Bool.noConfusion hs.2.2.2.2.2.1
      · rw [hy] at hs; exact Bool.noConfusion hs.2.2.2.2.2.2.1
      · rw [hy] at hs; exact Bool.noConfusion hs.2.2.2.2.2.2.2.1
      · rw [hy] at hs; exact Bool.noConfusion hs.2.2.2.2.2.2.2.2
      · exact List.not_mem_nil k hk

/-- C7 witness: a concrete merged record (an external guest user with one
registered method, no sign-in on record interactively and one
non-interactive sign-in) produces the thirteen columns in order. -/
theorem c7_witness :
    xlsx_dict_prep [[("id", PyVal.str "u1"),
      ("accountEnabled", PyVal.bool true),
      ("userDisplayName", PyVal.str "John"),
      ("userPrincipalName", PyVal.str "john_contoso.com#EXT#@tenant.onmicrosoft.com"),
      ("externalUserState", PyVal.none),
      ("externalUserStateChangeDateTime", PyVal.none),
      ("methodsRegistered", PyVal.list [PyVal.str "sms"]),
      ("onPremisesSyncEnabled", PyVal.none),
      ("signInActivity", PyVal.dict
        [("lastSignInDateTime", PyVal.none),
         ("lastNonInteractiveSignInDateTime", PyVal.str "2023-05-01T12:00:00Z")])]] =
    some [[("userId", PyVal.str "u1"),
      ("isEnabled", PyVal.str "Yes"),
      ("userDisplayName", PyVal.str "John"),
      ("userPrincipalName", PyVal.str "john_contoso.com#EXT#@tenant.onmicrosoft.com"),
      ("isExternal", PyVal.str "Yes"),
      ("externalDomain", PyVal.str "contoso.com"),
      ("externalUserState", PyVal.str "N/A"),
      ("externalUserStateLastChangeUTC", PyVal.str "N/A"),
      ("tenantDomain", PyVal.str "tenant.onmicrosoft.com"),
      ("methodsRegistered", PyVal.str "sms"),
      ("onPremisesSyncEnabled", PyVal.str "N/A"),
      ("lastInteractiveSignInUTC", PyVal.str "N/A"),
      ("lastNonInteractiveSignInUTC", PyVal.str "2023-05-01T12:00:00")]] := by
  have h := (c7_row_builder
    [("id", PyVal.str "u1"),
      ("accountEnabled", PyVal.bool true),
      ("userDisplayName", PyVal.str "John"),
      ("userPrincipalName", PyVal.str "john_contoso.com#EXT#@tenant.onmicrosoft.com"),
      ("externalUserState", PyVal.none),
      ("externalUserStateChangeDateTime", PyVal.none),
      ("methodsRegistered", PyVal.list [PyVal.str "sms"]),
      ("onPremisesSyncEnabled", PyVal.none),
      ("signInActivity", PyVal.dict
        [("lastSignInDateTime", PyVal.none),
         ("lastNonInteractiveSignInDateTime", PyVal.str "2023-05-01T12:00:00Z")])]
    (PyVal.str "u1") (PyVal.bool true) (PyVal.str "John")
    "john_contoso.com#EXT#@tenant.onmicrosoft.com" PyVal.none PyVal.none
    (PyVal.list [PyVal.str "sms"]) "sms" PyVal.none
    [("lastSignInDateTime", PyVal.none),
     ("lastNonInteractiveSignInDateTime", PyVal.str "2023-05-01T12:00:00Z")]
    PyVal.none (PyVal.str "2023-05-01T12:00:00Z")
    Option.none (some "2023-05-01T12:00:00Z") "N/A" "2023-05-01T12:00:00"
    rfl rfl rfl rfl rfl rfl rfl rfl rfl rfl rfl rfl rfl rfl rfl rfl).1
  exact h.trans (by rfl)
